/-
  Verification of the Library Assistant agent (library_agent.py).

  Shallow embedding: the catalog dictionaries become association lists
  (Python dicts preserve insertion order), the tool handlers become pure
  Lean functions over explicit state, Python string operations
  (strip / lower / substring membership / dict lookup) are modelled on
  character lists, and Python truthiness of optional strings is explicit.
-/
import Mathlib

namespace LibraryAgent

/-- The caller context (`UserContext` pydantic model): a display name and an
optional member id. `none` at a use site models a Python `None` context. -/
structure UserContext where
  name : String
  member_id : Option String
deriving Repr, DecidableEq

/-- `BOOK_DB`: title → number of copies, in Python dict insertion order. -/
def BOOK_DB : List (String × Nat) :=
  [("Clean Code", 2),
   ("Atomic Habits", 5),
   ("The Pragmatic Programmer", 0),
   ("Deep Work", 1),
   ("Harry Potter and the Sorcerer's Stone", 3)]

/-- `MEMBERS`: member id → member name. -/
def MEMBERS : List (String × String) :=
  [("M001", "Muhammad Annas"),
   ("M002", "Ali Khan")]

/-- Python `dict.get(key, None)`: exact (case-sensitive) string-key lookup. -/
def dictGet (db : List (String × Nat)) (key : String) : Option Nat :=
  (db.find? (fun p => p.1 == key)).map (fun p => p.2)

/-- Python `key in dict`: exact string-key membership. -/
def dictContainsKey (members : List (String × String)) (key : String) : Bool :=
  members.any (fun p => p.1 == key)

/-- Python `str.strip()` on the character list: drop whitespace at both ends. -/
def pyStripChars (l : List Char) : List Char :=
  ((l.dropWhile Char.isWhitespace).reverse.dropWhile Char.isWhitespace).reverse

/-- Python `str.strip()`. -/
def pyStrip (s : String) : String := ⟨pyStripChars s.data⟩

/-- Python `str.lower()` (ASCII-adequate for this catalog). -/
def pyLower (s : String) : String := ⟨s.data.map Char.toLower⟩

/-- Substring test on character lists: does `needle` occur contiguously? -/
def pyInChars (needle : List Char) : List Char → Bool
  | [] => needle.isEmpty
  | h :: t => needle.isPrefixOf (h :: t) || pyInChars needle t

/-- Python `needle in haystack` for strings: substring test. -/
def pySubstr (needle haystack : String) : Bool :=
  pyInChars needle.data haystack.data

/-- Python truthiness of an `Optional[str]`: `None` and `""` are falsy. -/
def pyTruthyOptStr : Option String → Bool
  | none => false
  | some s => !(s == "")

/-- Tool `search_book(query)`: case-insensitive partial-title match over the
catalog, returning either a not-found message or the matching titles joined
by `", "`, in catalog order. -/
def search_book (db : List (String × Nat)) (query : String) : String :=
  let q := pyLower (pyStrip query)
  let found := (db.map Prod.fst).filter (fun title => pySubstr q (pyLower title))
  if found.isEmpty then
    s!"No books found matching '{query}'."
  else
    "Found: " ++ String.intercalate ", " found

/-- The membership gate of `check_availability`: deny when the context is
absent, the `member_id` is falsy (`None` or `""`), or the `member_id` is not a
key of `MEMBERS`. Mirrors
`if not user_ctx or not user_ctx.member_id or user_ctx.member_id not in MEMBERS`. -/
def member_gate_denies (members : List (String × String)) :
    Option UserContext → Bool
  | none => true
  | some u =>
    !(pyTruthyOptStr u.member_id) ||
      !(dictContainsKey members (u.member_id.getD ""))

/-- The fixed denial string returned to non-members. -/
def denial_msg : String :=
  "Access denied: availability check is for registered members only."

/-- The not-found message of `check_availability`. -/
def not_found_msg (book_title : String) : String :=
  s!"Book '{book_title}' not found in catalog."

/-- The zero-copies message of `check_availability`. -/
def zero_copies_msg (book_title : String) : String :=
  s!"'{book_title}' is currently not available (0 copies)."

/-- The copies-available message of `check_availability`. -/
def copies_msg (book_title : String) (copies : Nat) : String :=
  s!"'{book_title}' — {copies} copies available."

/-- Tool `check_availability(ctx, book_title)`: registered members only, then
an exact-title catalog lookup distinguishing not-found / zero copies / n
copies. -/
def check_availability (db : List (String × Nat))
    (members : List (String × String)) (ctx : Option UserContext)
    (book_title : String) : String :=
  if member_gate_denies members ctx then
    denial_msg
  else
    match dictGet db book_title with
    | none => not_found_msg book_title
    | some copies =>
      if copies == 0 then zero_copies_msg book_title
      else copies_msg book_title copies

/-- Tool `get_library_timings()`: a constant string. -/
def get_library_timings : String :=
  "Library timings: Mon-Fri 09:00-18:00; Sat 10:00-14:00; Sun closed."

/-- What the guardrail sees when it reads the classifier run's final output
and probes `is_library_query`: the attribute may be missing, be `None`, be a
boolean, or the read may raise an exception. -/
inductive GuardRead where
  | attr_missing
  | attr_none
  | attr_bool (b : Bool)
  | raised
deriving Repr, DecidableEq

/-- `bool(getattr(out, "is_library_query", False))` with the surrounding
`try/except` that falls back to `True` when the read raises. -/
def guardrail_is_lib : GuardRead → Bool
  | .attr_missing => false
  | .attr_none => false
  | .attr_bool b => b
  | .raised => true

/-- `library_input_guardrail`'s tripwire flag: `tripwire_triggered = (not is_lib)`. -/
def library_input_guardrail_tripwire (r : GuardRead) : Bool :=
  !(guardrail_is_lib r)

/-- `dynamic_instructions(context, agent)`: greet by display name (falling
back to "Library user" when the context is absent or the name is falsy) and
state the fixed tool-usage policy. -/
def dynamic_instructions (ctx : Option UserContext) : String :=
  let name :=
    match ctx with
    | none => "Library user"
    | some u => if u.name == "" then "Library user" else u.name
  s!"Hello {name}. You are a helpful Library Assistant.\n" ++
    "- Use search_book to find books.\n" ++
    "- Use check_availability only for registered members.\n" ++
    "- Use get_library_timings for hours.\n" ++
    "- Refuse politely if it's not a library-related query.\n" ++
    "You may call multiple tools in one query."

/-- The process-wide store the handlers read: the book catalog and the member
registry. Threaded explicitly to make (absence of) mutation visible. -/
structure LibState where
  book_db : List (String × Nat)
  members : List (String × String)
deriving Repr, DecidableEq

/-- `search_book` as a state-threaded call: the body only reads `BOOK_DB`,
so the store comes back unchanged. -/
def search_book_call (s : LibState) (query : String) : String × LibState :=
  (search_book s.book_db query, s)

/-- `check_availability` as a state-threaded call: the body only reads
`MEMBERS` and `BOOK_DB` and never assigns to the context. -/
def check_availability_call (s : LibState) (ctx : Option UserContext)
    (book_title : String) : String × LibState × Option UserContext :=
  (check_availability s.book_db s.members ctx book_title, s, ctx)

/-- `get_library_timings` as a state-threaded call. -/
def get_library_timings_call (s : LibState) : String × LibState :=
  (get_library_timings, s)

/-- A tool invocation requested by the completion service. -/
structure ToolCallRequest where
  tool : String
  arg : String
deriving Repr, DecidableEq

/-- One turn of the completion service: either a final answer or a batch of
tool-call requests. -/
inductive ModelTurn where
  | final (text : String)
  | calls (reqs : List ToolCallRequest)

/-- The names registered in the tool catalog of `library_agent`. -/
def catalogNames : List String :=
  ["search_book", "check_availability", "get_library_timings"]

/-- Dispatch one validated tool call to its handler; `none` on an unknown
tool name. -/
def dispatchTool (ctx : Option UserContext) (r : ToolCallRequest) :
    Option String :=
  if r.tool == "search_book" then some (search_book BOOK_DB r.arg)
  else if r.tool == "check_availability" then
    some (check_availability BOOK_DB MEMBERS ctx r.arg)
  else if r.tool == "get_library_timings" then some get_library_timings
  else none

/-- The terminal artifact of one orchestration run. -/
inductive FinalAnswer where
  | rejected (reason : String)
  | answer (text : String)
  | unknownToolError
  | iterationLimitExceeded
deriving Repr, DecidableEq

/-- Modelled from the spec: the `DISPATCHING` loop of the Orchestration
Runner (§4.4), which lives in the external Agents SDK (`Runner.run_sync`)
and is not part of this repository's sources. The completion service is a
function from the history of tool-result batches to a `ModelTurn`; each
requested call is validated against the catalog (unknown name is a hard
error), executed in request order, and the batch is appended to the history;
the loop is bounded by the fixed iteration cap `fuel` and aborts with
`iterationLimitExceeded` when the cap is exhausted. The second component
counts tool-handler invocations. -/
def dispatchLoop (service : List (List String) → ModelTurn)
    (ctx : Option UserContext) :
    Nat → List (List String) → Nat → FinalAnswer × Nat
  | 0, _, count => (.iterationLimitExceeded, count)
  | fuel + 1, hist, count =>
    match service hist with
    | .final t => (.answer t, count)
    | .calls reqs =>
      if reqs.all (fun r => catalogNames.contains r.tool) then
        let results := reqs.map (fun r => (dispatchTool ctx r).getD "")
        dispatchLoop service ctx fuel (hist ++ [results])
          (count + reqs.length)
      else
        (.unknownToolError, count)

/-- Modelled from the spec: the full Orchestration Runner (§4.4): run the
guardrail first; a triggered tripwire is terminal (`REJECTED`) and reaches
no tool; otherwise enter the dispatch loop under the iteration cap. -/
def run_agent (rd : GuardRead) (service : List (List String) → ModelTurn)
    (ctx : Option UserContext) (cap : Nat) : FinalAnswer × Nat :=
  if library_input_guardrail_tripwire rd then (.rejected "out_of_domain", 0)
  else dispatchLoop service ctx cap [] 0

end LibraryAgent

namespace LibraryAgent

example :
    check_availability BOOK_DB MEMBERS (some ⟨"Guest User", none⟩) "Deep Work"
      = denial_msg := by decide

example :
    check_availability BOOK_DB MEMBERS (some ⟨"Muhammad Annas", some "M001"⟩)
      "Deep Work" = "'Deep Work' — 1 copies available." := by decide

example : search_book BOOK_DB "clean code" = "Found: Clean Code" := by decide

/-- C1: whenever the context is absent, has no `member_id`, or has a
`member_id` that is not a key of `MEMBERS`, `check_availability` returns the
fixed denial string for every `book_title` — and the result is the same for
every catalog `db`, so `BOOK_DB` is never consulted on this path. -/
theorem c1_member_gate_short_circuits (db : List (String × Nat))
    (ctx : Option UserContext) (book_title : String)
    (h : ctx = none ∨ ∃ u, ctx = some u ∧
      (u.member_id = none ∨
        dictContainsKey MEMBERS (u.member_id.getD "") = false)) :
    check_availability db MEMBERS ctx book_title = denial_msg := by
  rcases h with h | ⟨u, rfl, hu⟩
  · subst h; rfl
  · rcases hu with hm | hm
    · simp [check_availability, member_gate_denies, pyTruthyOptStr, hm]
    · simp [check_availability, member_gate_denies, hm]

/-- C1 witness: an absent context is denied on the real catalog. -/
theorem c1_witness :
    check_availability BOOK_DB MEMBERS none "Clean Code" = denial_msg :=
  c1_member_gate_short_circuits BOOK_DB none "Clean Code" (Or.inl rfl)

/-- C6: the instruction text depends on the context only through the display
name: two contexts differing only in `member_id` yield identical
instructions, so the credential never reaches the instruction text. -/
theorem c6_instructions_ignore_member_id (n : String)
    (m₁ m₂ : Option String) :
    dynamic_instructions (some ⟨n, m₁⟩) = dynamic_instructions (some ⟨n, m₂⟩) :=
  rfl

/-- C7: every tool handler is a pure read: each call leaves the store (and,
for `check_availability`, the context) unchanged, and repeating the call
from the state it produced returns the same result string. -/
theorem c7_handlers_pure_reads (s : LibState) (ctx : Option UserContext)
    (q t : String) :
    (search_book_call s q).2 = s ∧
    (search_book_call (search_book_call s q).2 q).1
      = (search_book_call s q).1 ∧
    (check_availability_call s ctx t).2.1 = s ∧
    (check_availability_call s ctx t).2.2 = ctx ∧
    (check_availability_call (check_availability_call s ctx t).2.1
        (check_availability_call s ctx t).2.2 t).1
      = (check_availability_call s ctx t).1 ∧
    (get_library_timings_call s).2 = s ∧
    (get_library_timings_call (get_library_timings_call s).2).1
      = (get_library_timings_call s).1 :=
  ⟨rfl, rfl, rfl, rfl, rfl, rfl, rfl⟩

/-- C8: when the classifier run completes but its output lacks a truthy
`is_library_query` (attribute missing, `None`, or `False`), the guardrail
trips the tripwire; the in-domain fallback applies only when reading the
output raises. -/
theorem c8_missing_flag_trips_tripwire :
    library_input_guardrail_tripwire .attr_missing = true ∧
    library_input_guardrail_tripwire .attr_none = true ∧
    library_input_guardrail_tripwire (.attr_bool false) = true ∧
    library_input_guardrail_tripwire .raised = false := by decide

/-- C3 counterexample: a classifier output that cannot be parsed into the
expected shape (the `is_library_query` attribute is missing) does trigger
the tripwire, refuting the claim that every such failure is fail-open. -/
theorem c3_counterexample_unparsed_output_trips :
    library_input_guardrail_tripwire .attr_missing = true := rfl

/-- C3 (amended): the fail-open fallback (`is_lib = True`, tripwire not
triggered) applies only when reading the classifier's final output raises
an exception; unparseable output read without an exception is fail-closed. -/
theorem c3_fail_open_only_on_read_exception :
    library_input_guardrail_tripwire .raised = false ∧
    guardrail_is_lib .raised = true := by decide

/-- C2: a guardrail classification of `is_library_query = false` makes the
run terminate rejected, with zero tool-handler invocations, for every
completion service, context and iteration cap. -/
theorem c2_rejected_runs_invoke_no_tools
    (service : List (List String) → ModelTurn) (ctx : Option UserContext)
    (cap : Nat) :
    run_agent (.attr_bool false) service ctx cap
      = (.rejected "out_of_domain", 0) := rfl

/-- Helper for C5: under a service that always requests valid tool calls,
the dispatch loop exhausts any fuel and aborts at the iteration limit. -/
theorem dispatchLoop_always_calls_hits_limit
    (service : List (List String) → ModelTurn) (ctx : Option UserContext)
    (h : ∀ hist, ∃ reqs, service hist = .calls reqs ∧
      reqs.all (fun r => catalogNames.contains r.tool) = true) :
    ∀ fuel hist count,
      (dispatchLoop service ctx fuel hist count).1 = .iterationLimitExceeded := by
  intro fuel
  induction fuel with
  | zero => intro hist count; rfl
  | succ m ih =>
    intro hist count
    obtain ⟨reqs, hs, hall⟩ := h hist
    simp only [dispatchLoop, hs, hall, if_true]
    exact ih _ _

/-- C5: the orchestration loop is bounded by the fixed cap: whenever the
guardrail passes and the completion service requests another (valid) batch
of tool calls on every turn, the run terminates in
`iterationLimitExceeded` rather than looping. -/
theorem c5_iteration_cap (rd : GuardRead)
    (service : List (List String) → ModelTurn) (ctx : Option UserContext)
    (cap : Nat)
    (hok : library_input_guardrail_tripwire rd = false)
    (h : ∀ hist, ∃ reqs, service hist = .calls reqs ∧
      reqs.all (fun r => catalogNames.contains r.tool) = true) :
    (run_agent rd service ctx cap).1 = .iterationLimitExceeded := by
  unfold run_agent
  rw [hok]
  simp only [Bool.false_eq_true, if_false]
  exact dispatchLoop_always_calls_hits_limit service ctx h cap [] 0

/-- C5 witness: a stubbed service that always asks for `get_library_timings`
exhausts a cap of 3. -/
theorem c5_witness :
    (run_agent (.attr_bool true)
        (fun _ => .calls [⟨"get_library_timings", ""⟩]) none 3).1
      = .iterationLimitExceeded :=
  c5_iteration_cap _ _ _ _ rfl
    (fun _ => ⟨[⟨"get_library_timings", ""⟩], rfl, rfl⟩)

/-- Helper: the not-found message (first character `B`) never coincides with
the zero-copies message (first character `'`) for the same title. -/
theorem not_found_ne_zero_copies (t : String) :
    not_found_msg t ≠ zero_copies_msg t := by
  intro h
  have h3 : (some 'B' : Option Char) = some '\'' :=
    congrArg (fun s => s.data.get? 0) h
  exact absurd h3 (by decide)

/-- Helper: the not-found message never coincides with the copies-available
message for the same title. -/
theorem not_found_ne_copies (t : String) (n : Nat) :
    not_found_msg t ≠ copies_msg t n := by
  intro h
  have h3 : (some 'B' : Option Char) = some '\'' :=
    congrArg (fun s => s.data.get? 0) h
  exact absurd h3 (by decide)

/-- Helper: the zero-copies message never coincides with the copies-available
message for the same title (they differ right after the closing quote). -/
theorem zero_copies_ne_copies (t : String) (n : Nat) :
    zero_copies_msg t ≠ copies_msg t n := by
  intro h
  have hd : ('\'' :: (t.data ++ "' is currently not available (0 copies).".data)
        : List Char)
      = '\'' :: (((t.data ++ "' — ".data) ++ (Nat.repr n).data)
          ++ " copies available.".data) :=
    congrArg String.data h
  have h1 : t.data ++ "' is currently not available (0 copies).".data
      = ((t.data ++ "' — ".data) ++ (Nat.repr n).data)
          ++ " copies available.".data := by
    injection hd
  rw [List.append_assoc, List.append_assoc] at h1
  have h2 := List.append_cancel_left h1
  have h3 : (some 'i' : Option Char) = some '—' :=
    congrArg (fun l => l.get? 2) h2
  exact absurd h3 (by decide)

/-- C4: for a registered member, `check_availability` distinguishes three
pairwise-distinct outcomes — title absent from the catalog yields the
not-found message, a title with 0 copies yields the zero-copies message, a
title with `m > 0` copies yields the copies-available message — and for any
title these three strings are pairwise different. -/
theorem c4_three_distinct_outcomes (ctx : Option UserContext)
    (hm : member_gate_denies MEMBERS ctx = false) (t : String) (n : Nat) :
    (dictGet BOOK_DB t = none →
        check_availability BOOK_DB MEMBERS ctx t = not_found_msg t) ∧
    (dictGet BOOK_DB t = some 0 →
        check_availability BOOK_DB MEMBERS ctx t = zero_copies_msg t) ∧
    (∀ m, dictGet BOOK_DB t = some m → m ≠ 0 →
        check_availability BOOK_DB MEMBERS ctx t = copies_msg t m) ∧
    not_found_msg t ≠ zero_copies_msg t ∧
    not_found_msg t ≠ copies_msg t n ∧
    zero_copies_msg t ≠ copies_msg t n := by
  refine ⟨?_, ?_, ?_, not_found_ne_zero_copies t, not_found_ne_copies t n,
    zero_copies_ne_copies t n⟩
  · intro h; simp [check_availability, hm, h]
  · intro h; simp [check_availability, hm, h]
  · intro m h hm0; simp [check_availability, hm, h, hm0]

/-- C4 witness: a registered member querying the zero-copies title. -/
theorem c4_witness :
    check_availability BOOK_DB MEMBERS (some ⟨"Ali Khan", some "M002"⟩)
        "The Pragmatic Programmer"
      = zero_copies_msg "The Pragmatic Programmer" :=
  (c4_three_distinct_outcomes (some ⟨"Ali Khan", some "M002"⟩) (by decide)
      "The Pragmatic Programmer" 1).2.1 (by decide)

/-- C9: `check_availability` matches titles exactly and case-sensitively —
for a registered member, any `book_title` string-unequal to every catalog
key yields the not-found message — while `search_book` matches trimmed,
case-insensitive substrings, so `"clean code"` is found by `search_book`
yet reported not found by `check_availability`. -/
theorem c9_exact_match_vs_substring (ctx : Option UserContext)
    (hm : member_gate_denies MEMBERS ctx = false) :
    (∀ t, (∀ p ∈ BOOK_DB, t ≠ p.1) →
        check_availability BOOK_DB MEMBERS ctx t = not_found_msg t) ∧
    search_book BOOK_DB "clean code" = "Found: Clean Code" ∧
    check_availability BOOK_DB MEMBERS ctx "clean code"
      = not_found_msg "clean code" := by
  refine ⟨?_, by decide, ?_⟩
  · intro t ht
    have hfind : dictGet BOOK_DB t = none := by
      unfold dictGet
      rw [List.find?_eq_none.mpr]
      · rfl
      · intro p hp
        simp only [beq_iff_eq]
        exact fun hh => ht p hp hh.symm
    simp [check_availability, hm, hfind]
  · have hfind : dictGet BOOK_DB "clean code" = none := by decide
    simp [check_availability, hm, hfind]

/-- C9 witness: a registered member asking for `"clean code"` exactly. -/
theorem c9_witness :
    check_availability BOOK_DB MEMBERS
        (some ⟨"Muhammad Annas", some "M001"⟩) "clean code"
      = not_found_msg "clean code" :=
  (c9_exact_match_vs_substring (some ⟨"Muhammad Annas", some "M001"⟩)
      (by decide)).1 "clean code" (by decide)

/-- C10: a query that strips to the empty string matches every catalog
title, so `search_book` lists the whole catalog in catalog order. -/
theorem c10_whitespace_query_lists_catalog (query : String)
    (h : pyStrip query = "") :
    search_book BOOK_DB query =
      "Found: Clean Code, Atomic Habits, The Pragmatic Programmer, " ++
        "Deep Work, Harry Potter and the Sorcerer's Stone" := by
  unfold search_book
  rw [h]
  rfl

/-- C10 witness: a three-space query lists the whole catalog. -/
theorem c10_witness :
    search_book BOOK_DB "   " =
      "Found: Clean Code, Atomic Habits, The Pragmatic Programmer, " ++
        "Deep Work, Harry Potter and the Sorcerer's Stone" :=
  c10_whitespace_query_lists_catalog "   " (by decide)

end LibraryAgent
